import Mathlib

/-!
Shallow embedding of `pymhihvac` (`src/api.py`): the session lifecycle and
retry-with-reauthentication protocol of the MHI HVAC local-API client.

Modelling conventions:
* Python exceptions become values of the inductive type `Exc`; a fallible
  computation returns `Except Exc α`.
* JSON values (`json.loads` results) become the inductive `Json`; Python
  dicts are association lists.
* Each `async` method body becomes a pure function that receives the HTTP
  response it would have obtained from the transport as an argument, and
  returns its outcome paired with a `Bool` recording whether the network
  request was actually issued (`false` when the method returns or raises
  before the `self._session.post(...)` call).
* The `reauth_retry` decorator becomes a recursion over the iterations of
  `for attempt in range(max_retries + 1)`, counting invocations of the
  wrapped operation and of `_async_login`.
-/

namespace Pymhihvac

/-- Exception values of `api.py`.  `pyError` stands for a Python builtin
exception (e.g. `IndexError`) that is not one of the module's own exception
classes; `transport` stands for `aiohttp.ClientError` / `TimeoutError` /
`json.JSONDecodeError`, which the module re-raises unwrapped. -/
inductive Exc where
  | loginFailed (msg : String)
  | noSessionCookie (msg : String)
  | apiCallFailed (msg : String) (cause : Option Exc)
  | sessionExpired
  | sessionNotInitialized (msg : String)
  | pyError (name : String)
  | transport (tag : String)

/-- The error kinds documented in the spec's error-handling design (§7):
`LoginFailed`, `NoSessionCookie`, `SessionNotInitialized`, `SessionExpired`,
`ApiCallFailed`, and transport errors.  Builtin Python errors such as
`IndexError` are not among them. -/
def Exc.documentedKind : Exc → Bool
  | .pyError _ => false
  | _ => true

/-- JSON values, the results of `json.loads`.  Python dicts are association
lists keyed by strings. -/
inductive Json where
  | null
  | bool (b : Bool)
  | num (n : Int)
  | str (s : String)
  | arr (elems : List Json)
  | obj (fields : List (String × Json))

/-- `isinstance(x, dict)` for a JSON value. -/
def Json.isDict : Json → Bool
  | .obj _ => true
  | _ => false

/-- Python `d.get(key, default)` on a value expected to be a dict; on a
non-dict it raises `AttributeError` (no `.get` attribute). -/
def Json.pyGetD : Json → String → Json → Except Exc Json
  | .obj fields, key, dflt => .ok ((List.lookup key fields).getD dflt)
  | _, _, _ => .error (.pyError "AttributeError")

/-- Python `d.get(key)` (default `None`) on a value expected to be a dict. -/
def Json.pyGet : Json → String → Except Exc (Option Json)
  | .obj fields, key => .ok (List.lookup key fields)
  | _, _ => .error (.pyError "AttributeError")

/-- Python `xs[i]` on a value expected to be a list: out-of-range indexing
raises `IndexError`; indexing a non-list raises a builtin error as well. -/
def Json.pyIndex : Json → Nat → Except Exc Json
  | .arr elems, i =>
      match elems[i]? with
      | some v => .ok v
      | none => .error (.pyError "IndexError")
  | _, _ => .error (.pyError "TypeError")

/-- Python `x == "-1"` for `x` the result of `floor_data.get("FloorNo")`:
true exactly when the value is the string `"-1"` (comparison of `None` or a
non-string with a string is `False`). -/
def isStrMinusOne : Option Json → Bool
  | some (.str s) => s = "-1"
  | _ => false

/-- Python truthiness of `self._session_cookie : str | None`:
`not cookie` holds for `None` and for the empty string. -/
def cookieFalsy : Option String → Bool
  | none => true
  | some s => s = ""

/-- Characters removed by Python `str.strip()` (ASCII whitespace). -/
def isPySpace (c : Char) : Bool :=
  c = ' ' || c = '\t' || c = '\n' || c = '\r' ||
    c = Char.ofNat 11 || c = Char.ofNat 12

/-- Python `s.strip()` restricted to ASCII whitespace. -/
def pyStrip (s : String) : String :=
  List.asString (((s.toList.dropWhile isPySpace).reverse.dropWhile isPySpace).reverse)

/-- Message of the `ApiCallFailedException` raised by `reauth_retry`. -/
def maxRetriesMsg (maxRetries : Nat) : String :=
  "Max re-authentication attempts (" ++ toString maxRetries ++ ") reached."

/-- Message of the `ApiCallFailedException` raised by `_async_send_command`
on a non-200 HTTP status. -/
def httpFailMsg (status : Nat) : String :=
  "Command failed with HTTP " ++ toString status ++ "."

/-- Message of the `LoginFailedException` raised by `_async_login`. -/
def loginFailedMsg (status : Nat) : String :=
  "Login failed with status " ++ toString status

/-- Message of every `SessionNotInitializedException` in `api.py`. -/
def sessionNotInitMsg : String := "Session is not initialized"

/-- Outcome of a `reauth_retry`-wrapped call: the returned value or raised
exception, together with how many times the wrapped operation and
`_async_login` were invoked. -/
structure RetryResult (T : Type) where
  result : Except Exc T
  opCalls : Nat
  loginCalls : Nat

/-- One iteration chain of the `for attempt in range(max_retries + 1)` loop
of `reauth_retry.decorator.wrapper` (`api.py` lines 57-75).  `op i` is the
outcome of the wrapped operation on its `i`-th invocation (0-based attempt
index); `login k` is the outcome of the `k`-th invocation of
`self._async_login()`; `remaining` is the number of loop iterations left,
and the accumulators count calls made so far. -/
def reauthRetryGo {T : Type} (maxRetries : Nat) (op : Nat → Except Exc T)
    (login : Nat → Except Exc String) :
    Nat → Nat → Nat → Nat → RetryResult T
  | _, opCalls, loginCalls, 0 =>
      -- the `raise` after the `for` loop (reachable only with an empty range)
      ⟨.error (.apiCallFailed (maxRetriesMsg maxRetries) none), opCalls, loginCalls⟩
  | attempt, opCalls, loginCalls, remaining + 1 =>
      match op attempt with
      | .ok v => ⟨.ok v, opCalls + 1, loginCalls⟩
      | .error .sessionExpired =>
          if attempt < maxRetries then
            match login loginCalls with
            | .ok _ =>
                reauthRetryGo maxRetries op login
                  (attempt + 1) (opCalls + 1) (loginCalls + 1) remaining
            | .error e => ⟨.error e, opCalls + 1, loginCalls + 1⟩
          else
            ⟨.error (.apiCallFailed (maxRetriesMsg maxRetries) (some .sessionExpired)),
              opCalls + 1, loginCalls⟩
      | .error e => ⟨.error e, opCalls + 1, loginCalls⟩

/-- The `reauth_retry(max_retries)` decorator applied to a session-bound
operation: runs the loop from attempt 0 with `max_retries + 1` iterations. -/
def reauth_retry {T : Type} (maxRetries : Nat) (op : Nat → Except Exc T)
    (login : Nat → Except Exc String) : RetryResult T :=
  reauthRetryGo maxRetries op login 0 0 0 (maxRetries + 1)

/-- Navigation `data.get("GetResGroupData", {}).get("FloorData", [{}])[0]`
of `async_get_raw_data` (`api.py` lines 149-151): `data` is the parsed
response dict. -/
def floorDataOf (data : List (String × Json)) : Except Exc Json :=
  match ((List.lookup "GetResGroupData" data).getD (.obj [])).pyGetD
      "FloorData" (.arr [.obj []]) with
  | .error e => .error e
  | .ok fd => fd.pyIndex 0

/-- Response interpretation of `async_get_raw_data` (`api.py` lines
148-155), from the parsed response dict `data` onward: navigate to
`FloorData[0]`; if its `FloorNo` equals `"-1"`, raise
`SessionExpiredException`; otherwise return its `GroupData` (default `{}`). -/
def async_get_raw_data_core (data : List (String × Json)) : Except Exc Json :=
  match floorDataOf data with
  | .error e => .error e
  | .ok floor_data =>
    match floor_data.pyGet "FloorNo" with
    | .error e => .error e
    | .ok floorNo =>
      if isStrMinusOne floorNo then
        .error .sessionExpired
      else
        floor_data.pyGetD "GroupData" (.obj [])

/-- Body of one attempt of `async_get_raw_data` (`api.py` lines 133-158).
`hasSession` is `self._session is not None`; `sessionCookie` is
`self._session_cookie`; `loginResult` is what `self.async_login()` would
return if invoked for the bootstrap login; `data` is the parsed JSON of the
response the POST would obtain.  The `Bool` records whether the POST was
issued. -/
def async_get_raw_data_body (hasSession : Bool) (sessionCookie : Option String)
    (loginResult : Except Exc String) (data : List (String × Json)) :
    Except Exc Json × Bool :=
  if !hasSession then
    (.error (.sessionNotInitialized sessionNotInitMsg), false)
  else
    match (if cookieFalsy sessionCookie then loginResult
           else .ok (sessionCookie.getD "")) with
    | .error e => (.error e, false)
    | .ok _ => (async_get_raw_data_core data, true)

/-- An HTTP response to the data endpoint: status, body text, and the value
`json.loads` yields on that body (when the body parses; a parse failure is
a transport-kind error outside the claims' scope). -/
structure HttpResponse where
  status : Nat
  bodyText : String
  bodyJson : Json

/-- Body of one attempt of `_async_send_command` (`api.py` lines 177-208).
`sessionCookie` only affects the request headers, not the outcome.  The
`Bool` records whether the POST was issued. -/
def async_send_command_body (hasSession : Bool) (_sessionCookie : Option String)
    (payload : Json) (resp : HttpResponse) : Except Exc Json × Bool :=
  if !hasSession then
    (.error (.sessionNotInitialized sessionNotInitMsg), false)
  else if !payload.isDict then
    (.ok (.obj [("_async_send_command", .str "Payload is not a dictionary")]), false)
  else
    -- headers carry `sessionCookie` when present; the POST is issued here
    if resp.status ≠ 200 then
      (.error (.apiCallFailed (httpFailMsg resp.status) none), true)
    else if pyStrip resp.bodyText = "" then
      (.error .sessionExpired, true)
    else
      (.ok resp.bodyJson, true)

/-- An HTTP response to the login endpoint: status and the `Set-Cookie`
header (`None` when absent). -/
structure LoginResponse where
  status : Nat
  setCookie : Option String

/-- Body of `_async_login` (`api.py` lines 225-257).  The `Bool` records
whether the POST was issued. -/
def async_login_body (hasSession : Bool) (resp : LoginResponse) :
    Except Exc String × Bool :=
  if !hasSession then
    (.error (.sessionNotInitialized sessionNotInitMsg), false)
  else if resp.status ≠ 302 then
    (.error (.loginFailed (loginFailedMsg resp.status)), true)
  else if cookieFalsy resp.setCookie then
    (.error (.noSessionCookie "Login did not return a session cookie"), true)
  else
    (.ok (resp.setCookie.getD ""), true)

/-- Client state of `MHIHVACLocalAPI`.  The aiohttp session is modelled as
an abstract handle (`Option Nat`): `none` when `self._session is None`. -/
structure MHIHVACLocalAPI where
  username : String
  password : String
  api_login_url : String
  api_url : String
  session : Option Nat
  session_cookie : Option String
  session_created_internally : Bool

/-- `MHIHVACLocalAPI.__init__` (`api.py` lines 85-117).  `extSession` is the
optional externally supplied session; `freshSession` is the handle of the
`aiohttp.ClientSession()` the constructor would create when none is given. -/
def initAPI (host username password : String) (extSession : Option Nat)
    (freshSession : Nat) : MHIHVACLocalAPI :=
  { username := username
    password := password
    api_login_url := "http://" ++ host ++ "/login.asp"
    api_url := "http://" ++ host ++ "/json/group_list_json.asp"
    session := match extSession with
      | none => some freshSession
      | some s => some s
    session_cookie := none
    session_created_internally := extSession.isNone }

/-- `close_session` (`api.py` lines 124-130): closes the aiohttp session
only if it exists and was created internally.  The `Bool` records whether
`self._session.close()` was awaited. -/
def close_session (api : MHIHVACLocalAPI) : MHIHVACLocalAPI × Bool :=
  if api.session.isSome && api.session_created_internally then
    ({ api with session := none }, true)
  else
    (api, false)

/-! ### Lemmas about the retry loop -/

lemma reauthRetryGo_all_expired {T : Type} (maxRetries : Nat)
    (op : Nat → Except Exc T) (login : Nat → Except Exc String)
    (hop : ∀ i, op i = .error .sessionExpired)
    (hlogin : ∀ k, ∃ c, login k = .ok c) :
    ∀ remaining attempt opCalls loginCalls,
      attempt + remaining = maxRetries + 1 → 1 ≤ remaining →
      reauthRetryGo maxRetries op login attempt opCalls loginCalls remaining =
        ⟨.error (.apiCallFailed (maxRetriesMsg maxRetries) (some .sessionExpired)),
          opCalls + remaining, loginCalls + (remaining - 1)⟩ := by
  intro remaining
  induction remaining with
  | zero => intro _ _ _ _ h1; omega
  | succ r ih =>
    intro attempt opCalls loginCalls hsum _
    simp only [reauthRetryGo, hop attempt]
    cases r with
    | zero =>
      have hge : ¬ attempt < maxRetries := by omega
      simp [hge]
    | succ r' =>
      have hlt : attempt < maxRetries := by omega
      obtain ⟨c, hc⟩ := hlogin loginCalls
      simp only [hlt, if_true, hc]
      rw [ih (attempt + 1) (opCalls + 1) (loginCalls + 1) (by omega) (by omega)]
      congr 1 <;> omega

lemma reauthRetryGo_expired_then_ok {T : Type} (maxRetries : Nat)
    (op : Nat → Except Exc T) (login : Nat → Except Exc String) (v : T)
    (hlogin : ∀ k, ∃ c, login k = .ok c) :
    ∀ k attempt opCalls loginCalls remaining,
      attempt + remaining = maxRetries + 1 →
      attempt + k ≤ maxRetries →
      (∀ i, attempt ≤ i → i < attempt + k → op i = .error .sessionExpired) →
      op (attempt + k) = .ok v →
      reauthRetryGo maxRetries op login attempt opCalls loginCalls remaining =
        ⟨.ok v, opCalls + k + 1, loginCalls + k⟩ := by
  intro k
  induction k with
  | zero =>
    intro attempt opCalls loginCalls remaining hsum hk _ hok
    cases remaining with
    | zero => omega
    | succ r =>
      simp only [reauthRetryGo]
      rw [show attempt + 0 = attempt from rfl] at hok
      simp [hok]
  | succ k' ih =>
    intro attempt opCalls loginCalls remaining hsum hk hexp hok
    cases remaining with
    | zero => omega
    | succ r =>
      have hse : op attempt = .error .sessionExpired :=
        hexp attempt (Nat.le_refl _) (by omega)
      have hlt : attempt < maxRetries := by omega
      obtain ⟨c, hc⟩ := hlogin loginCalls
      simp only [reauthRetryGo, hse, hlt, if_true, hc]
      have hok' : op (attempt + 1 + k') = .ok v := by
        rw [show attempt + 1 + k' = attempt + (k' + 1) by omega]; exact hok
      rw [ih (attempt + 1) (opCalls + 1) (loginCalls + 1) r (by omega) (by omega)
        (fun i h1 h2 => hexp i (by omega) (by omega)) hok']
      congr 1 <;> omega

lemma reauthRetryGo_no_sessionExpired {T : Type} (maxRetries : Nat)
    (op : Nat → Except Exc T) (login : Nat → Except Exc String)
    (hlogin : ∀ k, login k ≠ .error .sessionExpired) :
    ∀ remaining attempt opCalls loginCalls,
      (reauthRetryGo maxRetries op login attempt opCalls loginCalls
        remaining).result ≠ .error .sessionExpired := by
  intro remaining
  induction remaining with
  | zero => intro attempt opCalls loginCalls; simp [reauthRetryGo]
  | succ r ih =>
    intro attempt opCalls loginCalls
    simp only [reauthRetryGo]
    cases hop : op attempt with
    | ok v => simp
    | error e =>
      cases e with
      | sessionExpired =>
        by_cases hlt : attempt < maxRetries
        · simp only [hlt, if_true]
          cases hl : login loginCalls with
          | ok c => exact ih (attempt + 1) (opCalls + 1) (loginCalls + 1)
          | error e2 =>
            simpa using fun h => hlogin loginCalls (by rw [hl, h])
        · simp [hlt]
      | loginFailed msg => simp
      | noSessionCookie msg => simp
      | apiCallFailed msg cause => simp
      | sessionNotInitialized msg => simp
      | pyError name => simp
      | transport tag => simp

/-! ### Claims about the retry coordinator -/

/-- C1.  For every `maxRetries = n ≥ 0`, if the wrapped operation raises
`SessionExpired` on every attempt and each re-login succeeds, `reauth_retry`
invokes the wrapped operation exactly `n + 1` times and `_async_login`
exactly `n` times, then fails with `ApiCallFailed` wrapping the last
`SessionExpired` as cause. -/
theorem claim_C1 {T : Type} (n : Nat) (op : Nat → Except Exc T)
    (login : Nat → Except Exc String)
    (hop : ∀ i, op i = .error .sessionExpired)
    (hlogin : ∀ k, ∃ c, login k = .ok c) :
    reauth_retry n op login =
      ⟨.error (.apiCallFailed (maxRetriesMsg n) (some .sessionExpired)),
        n + 1, n⟩ := by
  rw [reauth_retry,
    reauthRetryGo_all_expired n op login hop hlogin (n + 1) 0 0 0 (by omega) (by omega)]
  congr 1 <;> omega

theorem claim_C1_witness :
    reauth_retry 2 (fun _ => (.error .sessionExpired : Except Exc Json))
      (fun _ => .ok "cookie") =
      ⟨.error (.apiCallFailed (maxRetriesMsg 2) (some .sessionExpired)), 3, 2⟩ :=
  claim_C1 2 _ _ (fun _ => rfl) (fun _ => ⟨"cookie", rfl⟩)

/-- C2.  A `SessionExpired` raised by the wrapped operation never reaches
the caller of a `reauth_retry`-wrapped operation (given that `_async_login`
itself never raises `SessionExpired`, which holds for `api.py`'s login),
while an exception of any other kind raised on the first attempt propagates
immediately, with no login call and no retry. -/
theorem claim_C2 {T : Type} (n : Nat) (op : Nat → Except Exc T)
    (login : Nat → Except Exc String)
    (hlogin : ∀ k, login k ≠ .error .sessionExpired) :
    (reauth_retry n op login).result ≠ .error .sessionExpired ∧
    (∀ e, e ≠ Exc.sessionExpired → op 0 = .error e →
      reauth_retry n op login = ⟨.error e, 1, 0⟩) := by
  constructor
  · exact reauthRetryGo_no_sessionExpired n op login hlogin (n + 1) 0 0 0
  · intro e hne hop
    cases e with
    | sessionExpired => exact absurd rfl hne
    | loginFailed msg => simp [reauth_retry, reauthRetryGo, hop]
    | noSessionCookie msg => simp [reauth_retry, reauthRetryGo, hop]
    | apiCallFailed msg cause => simp [reauth_retry, reauthRetryGo, hop]
    | sessionNotInitialized msg => simp [reauth_retry, reauthRetryGo, hop]
    | pyError name => simp [reauth_retry, reauthRetryGo, hop]
    | transport tag => simp [reauth_retry, reauthRetryGo, hop]

theorem claim_C2_witness :
    (reauth_retry 3 (fun _ => (.error (.transport "TimeoutError") : Except Exc Json))
        (fun _ => .ok "cookie")).result ≠ .error .sessionExpired ∧
    reauth_retry 3 (fun _ => (.error (.transport "TimeoutError") : Except Exc Json))
        (fun _ => .ok "cookie") = ⟨.error (.transport "TimeoutError"), 1, 0⟩ := by
  have h := claim_C2 3
    (fun _ => (.error (.transport "TimeoutError") : Except Exc Json))
    (fun _ => .ok "cookie") (fun _ h => by cases h)
  exact ⟨h.1, h.2 (.transport "TimeoutError") (by intro h2; cases h2) rfl⟩

/-- C3.  For every `maxRetries = n` and `k ≤ n`, if the wrapped operation
raises `SessionExpired` on exactly its first `k` attempts and then succeeds
(with each re-login succeeding), `reauth_retry` returns the success value,
invoking the wrapped operation `k + 1` times and `_async_login` exactly `k`
times. -/
theorem claim_C3 {T : Type} (n k : Nat) (op : Nat → Except Exc T)
    (login : Nat → Except Exc String) (v : T)
    (hk : k ≤ n)
    (hexp : ∀ i, i < k → op i = .error .sessionExpired)
    (hok : op k = .ok v)
    (hlogin : ∀ j, ∃ c, login j = .ok c) :
    reauth_retry n op login = ⟨.ok v, k + 1, k⟩ := by
  rw [reauth_retry,
    reauthRetryGo_expired_then_ok n op login v hlogin k 0 0 0 (n + 1) (by omega)
      (by omega) (fun i _ h2 => hexp i (by omega)) (by simpa using hok)]
  congr 1 <;> omega

theorem claim_C3_witness :
    reauth_retry 3
      (fun i => if i < 2 then (.error .sessionExpired : Except Exc Json)
                else .ok (.str "payload"))
      (fun _ => .ok "cookie") = ⟨.ok (.str "payload"), 3, 2⟩ :=
  claim_C3 3 2 _ _ (.str "payload") (by omega)
    (fun i hi => by interval_cases i <;> rfl) rfl (fun _ => ⟨"cookie", rfl⟩)

/-! ### Claims about the device operations, login, and client state -/

/-- C4.  For every parsed read-state response whose navigation
`GetResGroupData.FloorData[0]` yields a dict: if its `FloorNo` field equals
the string `"-1"`, `async_get_raw_data` raises `SessionExpired`; otherwise
it returns the `GroupData` field, defaulting to an empty mapping. -/
theorem claim_C4 (data : List (String × Json)) (fd : List (String × Json))
    (hnav : floorDataOf data = .ok (.obj fd)) :
    (List.lookup "FloorNo" fd = some (.str "-1") →
      async_get_raw_data_core data = .error .sessionExpired) ∧
    (isStrMinusOne (List.lookup "FloorNo" fd) = false →
      async_get_raw_data_core data =
        .ok ((List.lookup "GroupData" fd).getD (.obj []))) := by
  constructor
  · intro h
    simp [async_get_raw_data_core, hnav, Json.pyGet, h, isStrMinusOne]
  · intro h
    simp [async_get_raw_data_core, hnav, Json.pyGet, h, Json.pyGetD]

theorem claim_C4_witness :
    async_get_raw_data_core
      [("GetResGroupData", .obj [("FloorData", .arr [.obj
        [("FloorNo", .str "1"), ("GroupData", .obj [("test", .str "data")])]])])] =
      .ok (.obj [("test", .str "data")]) :=
  (claim_C4
    [("GetResGroupData", .obj [("FloorData", .arr [.obj
      [("FloorNo", .str "1"), ("GroupData", .obj [("test", .str "data")])]])])]
    [("FloorNo", .str "1"), ("GroupData", .obj [("test", .str "data")])]
    rfl).2 rfl

/-- C9.  A parsed read-state response whose `GetResGroupData.FloorData` is
an empty list makes `async_get_raw_data`'s indexing `FloorData[0]` raise an
`IndexError`, which is not one of the documented error kinds: the
navigation of the fixed response path is not total. -/
theorem claim_C9 (data : List (String × Json))
    (hempty : ((List.lookup "GetResGroupData" data).getD (.obj [])).pyGetD
      "FloorData" (.arr [.obj []]) = .ok (.arr [])) :
    async_get_raw_data_core data = .error (.pyError "IndexError") ∧
    Exc.documentedKind (.pyError "IndexError") = false := by
  refine ⟨?_, rfl⟩
  simp [async_get_raw_data_core, floorDataOf, hempty, Json.pyIndex]

theorem claim_C9_witness :
    async_get_raw_data_core [("GetResGroupData", .obj [("FloorData", .arr [])])] =
      .error (.pyError "IndexError") ∧
    Exc.documentedKind (.pyError "IndexError") = false :=
  claim_C9 [("GetResGroupData", .obj [("FloorData", .arr [])])] rfl

/-- C5.  For a dict payload with a session present, `_async_send_command`:
on HTTP 200 with a non-blank body returns the parsed JSON body unchanged;
on HTTP 200 with an empty/whitespace-only body raises `SessionExpired`;
on any other status fails with `ApiCallFailed` carrying the status, and
under the retry coordinator this propagates after a single attempt with no
login (no reauthentication). -/
theorem claim_C5 (cookie : Option String) (payload : Json) (resp : HttpResponse)
    (hdict : payload.isDict = true) :
    (resp.status = 200 → pyStrip resp.bodyText ≠ "" →
      async_send_command_body true cookie payload resp = (.ok resp.bodyJson, true)) ∧
    (resp.status = 200 → pyStrip resp.bodyText = "" →
      async_send_command_body true cookie payload resp =
        (.error .sessionExpired, true)) ∧
    (resp.status ≠ 200 →
      async_send_command_body true cookie payload resp =
        (.error (.apiCallFailed (httpFailMsg resp.status) none), true) ∧
      ∀ (n : Nat) (login : Nat → Except Exc String),
        reauth_retry n
            (fun _ => (async_send_command_body true cookie payload resp).1) login =
          ⟨.error (.apiCallFailed (httpFailMsg resp.status) none), 1, 0⟩) := by
  refine ⟨?_, ?_, ?_⟩
  · intro h200 hbody
    simp [async_send_command_body, hdict, h200, hbody]
  · intro h200 hbody
    simp [async_send_command_body, hdict, h200, hbody]
  · intro hstatus
    have hbodyeq : async_send_command_body true cookie payload resp =
        (.error (.apiCallFailed (httpFailMsg resp.status) none), true) := by
      simp [async_send_command_body, hdict, hstatus]
    refine ⟨hbodyeq, fun n login => ?_⟩
    simp [reauth_retry, reauthRetryGo, hbodyeq]

theorem claim_C5_witness :
    async_send_command_body true none (.obj [("test", .str "payload")])
        ⟨500, "err", .null⟩ =
      (.error (.apiCallFailed (httpFailMsg 500) none), true) ∧
    reauth_retry 3
        (fun _ => (async_send_command_body true none (.obj [("test", .str "payload")])
          ⟨500, "err", .null⟩).1)
        (fun _ => .ok "cookie") =
      ⟨.error (.apiCallFailed (httpFailMsg 500) none), 1, 0⟩ := by
  have h := (claim_C5 none (.obj [("test", .str "payload")]) ⟨500, "err", .null⟩
    rfl).2.2 (by decide)
  exact ⟨h.1, h.2 3 (fun _ => .ok "cookie")⟩

/-- C10.  For every payload that is not a dict (with a session present),
`_async_send_command` returns the mapping
`{"_async_send_command": "Payload is not a dictionary"}` without issuing
any HTTP request and without raising any error. -/
theorem claim_C10 (cookie : Option String) (payload : Json) (resp : HttpResponse)
    (hnd : payload.isDict = false) :
    async_send_command_body true cookie payload resp =
      (.ok (.obj [("_async_send_command", .str "Payload is not a dictionary")]),
        false) := by
  simp [async_send_command_body, hnd]

theorem claim_C10_witness :
    async_send_command_body true none (.str "notadict") ⟨200, "body", .null⟩ =
      (.ok (.obj [("_async_send_command", .str "Payload is not a dictionary")]),
        false) :=
  claim_C10 none (.str "notadict") ⟨200, "body", .null⟩ rfl

/-- C6.  With a session present, `_async_login` succeeds if and only if the
HTTP status is exactly 302 and the `Set-Cookie` header is present and
non-empty, in which case it returns that header value verbatim; any other
status fails with `LoginFailed` reporting the status; status 302 with a
missing or empty cookie header fails with `NoSessionCookie`. -/
theorem claim_C6 (resp : LoginResponse) :
    ((∃ c, (async_login_body true resp).1 = .ok c) ↔
      (resp.status = 302 ∧ ∃ c, resp.setCookie = some c ∧ c ≠ "")) ∧
    (∀ c, resp.status = 302 → resp.setCookie = some c → c ≠ "" →
      (async_login_body true resp).1 = .ok c) ∧
    (resp.status ≠ 302 →
      async_login_body true resp =
        (.error (.loginFailed (loginFailedMsg resp.status)), true)) ∧
    (resp.status = 302 → cookieFalsy resp.setCookie = true →
      async_login_body true resp =
        (.error (.noSessionCookie "Login did not return a session cookie"), true)) := by
  obtain ⟨status, setCookie⟩ := resp
  by_cases h302 : status = 302
  · subst h302
    cases setCookie with
    | none =>
      simp [async_login_body, cookieFalsy]
    | some c =>
      by_cases hc : c = ""
      · subst hc
        simp [async_login_body, cookieFalsy]
      · simp [async_login_body, cookieFalsy, hc]
  · simp [async_login_body, cookieFalsy, h302]

theorem claim_C6_witness :
    (async_login_body true ⟨302, some "session=123"⟩).1 = .ok "session=123" :=
  (claim_C6 ⟨302, some "session=123"⟩).2.1 "session=123" rfl rfl (by decide)

/-- C7.  When the transport session is absent (`self._session is None`,
as after `close_session` on a client that created its session internally),
`async_get_raw_data`, `_async_send_command` and `_async_login` each fail
with `SessionNotInitialized` before issuing any network request. -/
theorem claim_C7 :
    (∀ (cookie : Option String) (login : Except Exc String)
        (data : List (String × Json)),
      async_get_raw_data_body false cookie login data =
        (.error (.sessionNotInitialized sessionNotInitMsg), false)) ∧
    (∀ (cookie : Option String) (payload : Json) (resp : HttpResponse),
      async_send_command_body false cookie payload resp =
        (.error (.sessionNotInitialized sessionNotInitMsg), false)) ∧
    (∀ (resp : LoginResponse),
      async_login_body false resp =
        (.error (.sessionNotInitialized sessionNotInitMsg), false)) ∧
    (∀ (host username password : String) (fresh : Nat),
      (close_session (initAPI host username password none fresh)).1.session = none) :=
  ⟨fun _ _ _ => rfl, fun _ _ _ => rfl, fun _ => rfl, fun _ _ _ _ => rfl⟩

/-- C8.  `close_session` releases the transport session if and only if the
client created it internally: closing a client that created its own session
closes it (`close` is awaited) and leaves the session absent, while closing
a client constructed with an externally supplied session never closes it
and leaves the client unchanged. -/
theorem claim_C8 (host username password : String) (fresh ext : Nat) :
    close_session (initAPI host username password none fresh) =
      ({ initAPI host username password none fresh with session := none }, true) ∧
    close_session (initAPI host username password (some ext) fresh) =
      (initAPI host username password (some ext) fresh, false) :=
  ⟨rfl, rfl⟩

end Pymhihvac
